/-
Verification of the scene-state engine in selfdrive/ui/ui.cc.

The C++ source is shallowly embedded: floating-point scalars are modelled as
rationals, fixed-size C arrays as functions out of Fin n, and each stateful
code region as an explicit state-passing function.  Every definition mirrors
the corresponding source lines; the few definitions that follow the
specification text instead (for refinement comparison, or for code of the
repository that lies outside the provided source file) say so in their doc
comments.
-/

import Mathlib

open BigOperators

/-! ## std::clamp (used at ui.cc lines 101, 127, 313, 539) -/

/-- std::clamp(v, lo, hi): lo if v < lo, hi if hi < v, otherwise v. -/
def stdClamp (v lo hi : ℚ) : ℚ := if v < lo then lo else if hi < v then hi else v

/-! ## Rolling percent-grade estimator (update_state, ui.cc lines 205-244)

UIScene keeps five altitude/position slots, five stored rise/run percentages,
the maintained mean percentGrade, a rolled flag and a rolling iterator;
percentGradeNumSamples is 5 throughout (the reset loop at lines 419-425 also
iterates over exactly 5 slots). -/

/-- The rolling-grade portion of UIScene: fields percentGradeAltitudes,
percentGradePositions, percentGrades, percentGrade, percentGradeIterRolled
and percentGradeRollingIter. -/
structure GradeState where
  percentGradeAltitudes : Fin 5 → ℚ
  percentGradePositions : Fin 5 → ℚ
  percentGrades : Fin 5 → ℚ
  percentGrade : ℚ
  percentGradeIterRolled : Bool
  percentGradeRollingIter : ℕ
deriving DecidableEq

/-- Index into the five slots, reducing modulo the sample count as the code
does with percent signs over scene.percentGradeNumSamples. -/
def idx5 (n : ℕ) : Fin 5 := ⟨n % 5, Nat.mod_lt n (by norm_num)⟩

/-- rise for the pair of slot i and its wrap-around successor
(ui.cc lines 216 and 231). -/
def pairRise (st : GradeState) (i : Fin 5) : ℚ :=
  st.percentGradeAltitudes i - st.percentGradeAltitudes (idx5 (i.val + 1))

/-- run for the pair of slot i and its wrap-around successor
(ui.cc lines 217 and 232). -/
def pairRun (st : GradeState) (i : Fin 5) : ℚ :=
  st.percentGradePositions i - st.percentGradePositions (idx5 (i.val + 1))

/-- The one-time initial mean taken when the buffer first rolls
(ui.cc lines 211-225): every pair with non-zero run stores its ratio in its
percentGrades slot and contributes it to the accumulator u, which is then
divided by 5 regardless of how many pairs contributed. -/
def rollInitialMean (st : GradeState) : GradeState :=
  { st with
    percentGrades := fun i =>
      if pairRun st i = 0 then st.percentGrades i
      else pairRise st i / pairRun st i * 100,
    percentGrade :=
      (∑ i : Fin 5, if pairRun st i = 0 then 0
        else pairRise st i / pairRun st i * 100) / 5,
    percentGradeIterRolled := true }

/-- Writing the new sample into slot it2 and committing the advanced
iterator (ui.cc lines 228-229 together with the iterator updates at
lines 209 and 226). -/
def writeSlot (st : GradeState) (it2 : ℕ) (alt pos : ℚ) : GradeState :=
  { st with
    percentGradeAltitudes := Function.update st.percentGradeAltitudes (idx5 it2) alt,
    percentGradePositions := Function.update st.percentGradePositions (idx5 it2) pos,
    percentGradeRollingIter := it2 }

/-- The O(1) incremental mean update after a sample lands in slot j
(ui.cc lines 230-240): recompute the single ratio of slot j against its
wrap-around successor, and if its run is non-zero subtract the old stored
contribution of slot j and add the new one. -/
def incrementalUpdate (st : GradeState) (j : Fin 5) : GradeState :=
  if st.percentGradeIterRolled then
    if pairRun st j = 0 then st
    else
      { st with
        percentGrade := st.percentGrade - st.percentGrades j / 5
          + pairRise st j / pairRun st j * 100 / 5,
        percentGrades := Function.update st.percentGrades j
          (pairRise st j / pairRun st j * 100) }
  else st

/-- One recorded sample of the grade estimator: the body of
"if (scene.percentGradeCurDist > scene.percentGradeLenStep)", ui.cc
lines 208-241.  alt is scene.altitudeUblox and dist the accumulated
percentGradeCurDist at recording time, so positions hold cumulative
distance. -/
def recordSample (st : GradeState) (alt dist : ℚ) : GradeState :=
  let prevDist := st.percentGradePositions (idx5 st.percentGradeRollingIter)
  let it1 := st.percentGradeRollingIter + 1
  let st1 := if 5 ≤ it1 then
      (if st.percentGradeIterRolled then st else rollInitialMean st)
    else st
  let it2 := if 5 ≤ it1 then 0 else it1
  incrementalUpdate (writeSlot st1 it2 alt (prevDist + dist)) (idx5 it2)

/-- Fold recordSample over a list of (altitude, distance) samples. -/
def recordRun (st : GradeState) (samples : List (ℚ × ℚ)) : GradeState :=
  samples.foldl (fun s p => recordSample s p.1 p.2) st

/-- The grade state produced by the onroad-transition reset
(update_status, ui.cc lines 418-425). -/
def resetGradeState : GradeState :=
  { percentGradeAltitudes := fun _ => 0
    percentGradePositions := fun _ => 0
    percentGrades := fun _ => 0
    percentGrade := 0
    percentGradeIterRolled := false
    percentGradeRollingIter := 0 }

/-- Written from the specification text, for comparison with the code: the
true mean of the 5 wrap-around pairwise rise/run percentages over the last
5 samples, i.e. of the ratios of the buffer contents as they currently
stand. -/
def specPairwiseMean (st : GradeState) : ℚ :=
  (∑ i : Fin 5, pairRise st i / pairRun st i * 100) / 5

/-- The invariant actually maintained by the code after the first roll: the
published percentGrade is the mean of the five stored per-slot ratios (and
before the first roll the stored ratios are still the reset zeros). -/
def gradesSumInv (st : GradeState) : Prop :=
  (st.percentGradeIterRolled = true →
    st.percentGrade = (∑ i : Fin 5, st.percentGrades i) / 5)
  ∧ (st.percentGradeIterRolled = false → ∀ i, st.percentGrades i = 0)

instance gradesSumInvDecidable (st : GradeState) : Decidable (gradesSumInv st) := by
  unfold gradesSumInv
  infer_instance

/-- Sample trace for the rolling grade: nine samples recorded at constant
10-unit distance steps, all at altitude 0 except the sixth at altitude 1. -/
def c1samples : List (ℚ × ℚ) :=
  [(0,10),(0,10),(0,10),(0,10),(0,10),(1,10),(0,10),(0,10),(0,10)]

/-- The grade state after feeding c1samples from the onroad reset state. -/
def c1state : GradeState := recordRun resetGradeState c1samples

/-! ## update_status onroad-transition handling (ui.cc lines 406-455)

Only the rolling-grade part of the session setup is relevant here: on a tick
where scene.started differs from the static started_prev and is true, the
grade fields are reset (lines 418-425); in every other case they are left
untouched.  started_prev is then unconditionally set to started (line 455). -/

/-- The effect of update_status on the rolling-grade state. -/
def update_status_grade (started started_prev : Bool) (g : GradeState) : GradeState :=
  if started ≠ started_prev then (if started then resetGradeState else g) else g

/-! ## Brake-indicator and one-pedal fades (update_state, ui.cc lines 159-188) -/

/-- fade_duration = 0.3 s (ui.cc line 25). -/
def fade_duration : ℚ := 3/10

/-- fade_time_step = 1 / fade_duration (ui.cc line 26). -/
def fade_time_step : ℚ := 1 / fade_duration

/-- One carState update of scene.brake_indicator_alpha (ui.cc lines
162-173); dt is t - scene.brake_indicator_last_t. -/
def brakeFadeStep (alpha : ℚ) (brake_percent : ℤ) (dt : ℚ) : ℚ :=
  if 0 < brake_percent then
    (if 1 < alpha + fade_time_step * dt then 1 else alpha + fade_time_step * dt)
  else if 0 < alpha then
    (if alpha - fade_time_step * dt < 0 then 0 else alpha - fade_time_step * dt)
  else alpha

/-- One carState update of scene.one_pedal_fade (ui.cc lines 175-188);
gateOpen is the 10-second session guard t - scene.sessionInitTime > 10 and
cond the compound mode-active condition of lines 176-177; dt is
t - scene.one_pedal_fade_last_t. -/
def onePedalFadeStep (fade : ℚ) (gateOpen cond : Bool) (dt : ℚ) : ℚ :=
  if gateOpen then
    (if cond then
      (if 1 < fade + fade_time_step * dt then 1 else fade + fade_time_step * dt)
     else if -1 < fade then
      (if fade - fade_time_step * dt < -1 then -1 else fade - fade_time_step * dt)
     else fade)
  else fade

/-- Fold brakeFadeStep over a sequence of (brake percent, elapsed dt)
carState updates. -/
def brakeFadeRun (alpha : ℚ) (steps : List (ℤ × ℚ)) : ℚ :=
  steps.foldl (fun a p => brakeFadeStep a p.1 p.2) alpha

/-- Fold onePedalFadeStep over a sequence of (gate, condition, elapsed dt)
carState updates. -/
def onePedalFadeRun (fade : ℚ) (steps : List (Bool × Bool × ℚ)) : ℚ :=
  steps.foldl (fun f p => onePedalFadeStep f p.1 p.2.1 p.2.2) fade

/-! ## Calibrated projection (calib_frame_to_full_frame, ui.cc lines 30-42) -/

/-- matvecmul3 from the common matrix helpers: 3x3 matrix times vector. -/
def matvecmul3 (m : Fin 3 → Fin 3 → ℚ) (v : Fin 3 → ℚ) : Fin 3 → ℚ :=
  fun i => ∑ j : Fin 3, m i j * v j

/-- The projection-relevant fields of UIState: the calibration rotation
(scene.view_from_calib), the intrinsic matrix already selected by
s->wide_camera, the 2x3 NanoVG car_space_transform (six coefficients), and
the framebuffer size. -/
structure ProjectionState where
  view_from_calib : Fin 3 → Fin 3 → ℚ
  intrinsic_matrix : Fin 3 → Fin 3 → ℚ
  car_space_transform : Fin 6 → ℚ
  fb_w : ℚ
  fb_h : ℚ

/-- KEp of ui.cc lines 32-34: intrinsics times (calibration rotation times
the car-space point). -/
def transformedPoint (s : ProjectionState) (in_x in_y in_z : ℚ) : Fin 3 → ℚ :=
  matvecmul3 s.intrinsic_matrix (matvecmul3 s.view_from_calib ![in_x, in_y, in_z])

/-- x component of nvgTransformPoint: sx*t[0] + sy*t[2] + t[4]. -/
def nvgTransformX (t : Fin 6 → ℚ) (sx sy : ℚ) : ℚ := sx * t 0 + sy * t 2 + t 4

/-- y component of nvgTransformPoint: sx*t[1] + sy*t[3] + t[5]. -/
def nvgTransformY (t : Fin 6 → ℚ) (sx sy : ℚ) : ℚ := sx * t 1 + sy * t 3 + t 5

/-- calib_frame_to_full_frame (ui.cc lines 30-42): rotate, apply intrinsics,
divide by the third component with no guard, apply the display transform,
and report visibility within the screen expanded by a 500 px margin.
Returns the written vertex and the boolean return value. -/
def calib_frame_to_full_frame (s : ProjectionState) (in_x in_y in_z : ℚ) :
    (ℚ × ℚ) × Bool :=
  let margin : ℚ := 500
  let KEp := transformedPoint s in_x in_y in_z
  let x := KEp 0 / KEp 2
  let y := KEp 1 / KEp 2
  let ox := nvgTransformX s.car_space_transform x y
  let oy := nvgTransformY s.car_space_transform x y
  ((ox, oy),
    decide (-margin ≤ ox ∧ ox ≤ s.fb_w + margin ∧ -margin ≤ oy ∧ oy ≤ s.fb_h + margin))

/-- A concrete ProjectionState used to instantiate projection theorems:
identity rotation and intrinsics, identity display transform, 100x100
framebuffer. -/
def projSample : ProjectionState :=
  { view_from_calib := fun i j => if i = j then 1 else 0
    intrinsic_matrix := fun i j => if i = j then 1 else 0
    car_space_transform := ![1, 0, 0, 1, 0, 0]
    fb_w := 100
    fb_h := 100 }

/-! ## update_line_data (ui.cc lines 83-95)

The forward pass visits indices 0..max_idx with lateral offset -y_off, the
backward pass max_idx..0 with +y_off; the vertex cursor advances only when
calib_frame_to_full_frame reports the point visible, so the buffer holds
exactly the visible projections in visiting order and cnt is its length. -/

/-- The vertex list written by update_line_data for one curve. -/
def update_line_data_verts (s : ProjectionState) (line_x line_y line_z : List ℚ)
    (y_off z_off : ℚ) (max_idx : ℕ) : List (ℚ × ℚ) :=
  ((List.range (max_idx + 1)).filterMap fun i =>
    let r := calib_frame_to_full_frame s (line_x.getD i 0)
      (line_y.getD i 0 - y_off) (line_z.getD i 0 + z_off)
    if r.2 then some r.1 else none)
  ++ ((List.range (max_idx + 1)).reverse.filterMap fun i =>
    let r := calib_frame_to_full_frame s (line_x.getD i 0)
      (line_y.getD i 0 + y_off) (line_z.getD i 0 + z_off)
    if r.2 then some r.1 else none)

/-! ## update_model path horizon (ui.cc lines 97-131)

MIN_DRAW_DISTANCE and MAX_DRAW_DISTANCE come from a header outside the
provided source file, so the configured draw-distance range appears here as
parameters min_draw and max_draw. -/

/-- The max_distance value used for the driving-path truncation in
update_model (lines 101-102 and 124-128): the far trajectory endpoint
clamped to the configured range, then shortened when the first lead has
probability above 0.5. -/
def update_model_max_distance (min_draw max_draw trajEndX lead_prob lead_x : ℚ) : ℚ :=
  let max_distance := stdClamp trajEndX min_draw max_draw
  if 1/2 < lead_prob then
    stdClamp (lead_x * 2 - min (lead_x * 2 * (35/100)) 10) 0 max_distance
  else max_distance

/-- Written from the specification text, for comparison with the code: the
shortened horizon clamp(x*2 - min(x*2*0.35, 10), 0, maxDistance). -/
def spec_shortened_horizon (lead_x maxDistance : ℚ) : ℚ :=
  stdClamp (lead_x * 2 - min (lead_x * 2 * (35/100)) 10) 0 maxDistance

/-! ## The modelV2 rebuild gate (update_state, ui.cc lines 253-259)

The rebuild of the vertex buffers runs iff sm.updated("modelV2") && s->vg;
scene.world_objects_visible starts false (ui_init_vision line 46, "invisible
until we receive a calibration message") and is set to true on a
liveCalibration update (lines 258-259), but is not consulted by the rebuild
gate. -/

/-- The tick inputs of the modelV2 branch: whether the model topic updated,
whether the drawing context s->vg exists, and the calibration-ever-received
flag scene.world_objects_visible. -/
structure ModelUpdateFlags where
  updatedModelV2 : Bool
  vg : Bool
  world_objects_visible : Bool
deriving DecidableEq

/-- The gate of ui.cc line 253: sm.updated("modelV2") && s->vg. -/
def modelRebuildPerformed (f : ModelUpdateFlags) : Bool := f.updatedModelV2 && f.vg

/-- The effect of the modelV2 branch on the driving-path vertex buffer
scene.track_vertices: rebuilt through update_line_data with y_off 0.5 and
z_off 1.22 (ui.cc line 130) when the gate passes, untouched otherwise. -/
def modelBranchTrack (f : ModelUpdateFlags) (s : ProjectionState)
    (line_x line_y line_z : List ℚ) (max_idx : ℕ) (old : List (ℚ × ℚ)) :
    List (ℚ × ℚ) :=
  if modelRebuildPerformed f then
    update_line_data_verts s line_x line_y line_z (1/2) (61/50) max_idx
  else old

/-- The liveCalibration branch effect on scene.world_objects_visible
(ui.cc lines 258-259). -/
def calibUpdateVisible (world_objects_visible updatedLiveCalibration : Bool) : Bool :=
  if updatedLiveCalibration then true else world_objects_visible

/-! ## Device::updateBrightness (ui.cc lines 527-554)

The FirstOrderFilter brightness_filter lives in a common utility header
outside the provided source file. -/

/-- BACKLIGHT_OFFROAD (ui.cc line 23), also the initial filter value
(ui.cc line 503). -/
def BACKLIGHT_OFFROAD : ℚ := 75

/-- The CIE 1931 perceptual response of ui.cc lines 529-539: scale the
ambient-light estimate to 0..100, apply the piecewise linear/cubic curve,
rescale and clamp to 10..100. -/
def cieClippedBrightness (light_sensor : ℚ) : ℚ :=
  let cb := 100 * light_sensor
  let cb2 := if cb ≤ 8 then cb / (9033/10) else ((cb + 16) / 116) ^ 3
  stdClamp (100 * cb2) 10 100

/-- Modelled from the spec: the exponential low-pass FirstOrderFilter used
for brightness is not part of the provided source; per the specification it
returns y + (x - y) * (1 - exp(-dt/tau)) or an equivalent discrete
approximation, abstracted here over the smoothing coefficient k. -/
def firstOrderFilterUpdate (k y x : ℚ) : ℚ := y + (x - y) * k

/-- One Device::updateBrightness tick: the filter target is the CIE curve
output when started, pinned to BACKLIGHT_OFFROAD otherwise (lines 541-543);
the filter always advances (line 545) and the published value is forced to
0 when not awake (lines 546-548).  Returns (published value, new filter
state). -/
def updateBrightnessStep (k : ℚ) (started awake : Bool) (light_sensor y : ℚ) :
    ℚ × ℚ :=
  let clipped := if started then cieClippedBrightness light_sensor else BACKLIGHT_OFFROAD
  let y2 := firstOrderFilterUpdate k y clipped
  (if awake then y2 else 0, y2)

/-- Iterate updateBrightnessStep over a list of (started, awake, light)
ticks, collecting the published values and the final filter state. -/
def brightnessRun (k y : ℚ) : List (Bool × Bool × ℚ) → List ℚ × ℚ
  | [] => ([], y)
  | (started, awake, light) :: rest =>
    let r := updateBrightnessStep k started awake light y
    let rec2 := brightnessRun k r.2 rest
    (r.1 :: rec2.1, rec2.2)

/-! ## Device::updateWakefulness (ui.cc lines 556-569)

The sample count accel_samples of the running accelerometer average lives
outside the provided source file and appears here as a parameter. -/

/-- The Device fields touched by updateWakefulness. -/
structure DeviceWakeState where
  awake_timeout : ℤ
  accel_prev : ℚ
  gyro_prev : ℚ
deriving DecidableEq

/-- One updateWakefulness tick (ui.cc lines 556-569): decrement the
countdown floored at 0; should_wake is onroad or ignition, and otherwise
the conjunction of an accelerometer delta above 0.2 and a gyroscope delta
above 0.15 against the stored baselines, in which case the gyro baseline
takes the raw sample and the accel baseline a 1/N-weighted running average.
Returns (new state, should_wake). -/
def updateWakefulnessStep (accel_samples : ℚ) (started ignition : Bool)
    (accel_sensor gyro_sensor : ℚ) (st : DeviceWakeState) :
    DeviceWakeState × Bool :=
  let timeout := max (st.awake_timeout - 1) 0
  if started || ignition then
    ({ st with awake_timeout := timeout }, true)
  else
    ({ awake_timeout := timeout,
       accel_prev := (st.accel_prev * (accel_samples - 1) + accel_sensor) / accel_samples,
       gyro_prev := gyro_sensor },
     decide ((1:ℚ)/5 < |accel_sensor - st.accel_prev|)
       && decide ((3:ℚ)/20 < |gyro_sensor - st.gyro_prev|))

/-- Written from the claim text, for comparison with the code: should_wake
with the tap term additionally gated on the device being asleep. -/
def spec_should_wake (awake started ignition : Bool) (accel_delta gyro_delta : ℚ) :
    Bool :=
  started || ignition
    || (!awake && decide ((1:ℚ)/5 < |accel_delta|)
        && decide ((3:ℚ)/20 < |gyro_delta|))

/-- A grade state that has already rolled, used to instantiate the
zero-run guard theorem. -/
def c6SampleState : GradeState :=
  { resetGradeState with percentGradeIterRolled := true }

/-! ## Helper lemmas -/

theorem incrementalUpdate_iterRolled (st : GradeState) (j : Fin 5) :
    (incrementalUpdate st j).percentGradeIterRolled = st.percentGradeIterRolled := by
  unfold incrementalUpdate
  split
  · split <;> rfl
  · rfl

theorem incrementalUpdate_grade_eq_mean (st : GradeState) (j : Fin 5)
    (h : st.percentGrade = (∑ i : Fin 5, st.percentGrades i) / 5) :
    (incrementalUpdate st j).percentGrade
      = (∑ i : Fin 5, (incrementalUpdate st j).percentGrades i) / 5 := by
  unfold incrementalUpdate
  by_cases hr : st.percentGradeIterRolled = true
  · rw [if_pos hr]
    by_cases hz : pairRun st j = 0
    · rw [if_pos hz]; exact h
    · rw [if_neg hz]
      simp only
      rw [Finset.sum_update_of_mem (Finset.mem_univ j)]
      have herase : ∑ x ∈ Finset.univ \ {j}, st.percentGrades x
          = (∑ i : Fin 5, st.percentGrades i) - st.percentGrades j := by
        rw [eq_sub_iff_add_eq, ← Finset.erase_eq,
          Finset.sum_erase_add _ _ (Finset.mem_univ j)]
      rw [herase, h]
      ring
  · rw [if_neg hr]; exact h

theorem gradesSumInv_incrementalUpdate (st : GradeState) (j : Fin 5)
    (h : gradesSumInv st) : gradesSumInv (incrementalUpdate st j) := by
  obtain ⟨h1, h2⟩ := h
  by_cases hr : st.percentGradeIterRolled = true
  · constructor
    · intro _
      exact incrementalUpdate_grade_eq_mean st j (h1 hr)
    · intro hf
      rw [incrementalUpdate_iterRolled, hr] at hf
      cases hf
  · have heq : incrementalUpdate st j = st := by
      unfold incrementalUpdate; rw [if_neg hr]
    rw [heq]
    exact ⟨h1, h2⟩

theorem rollInitialMean_grade_eq_mean (st : GradeState)
    (h : ∀ i, st.percentGrades i = 0) :
    (rollInitialMean st).percentGrade
      = (∑ i : Fin 5, (rollInitialMean st).percentGrades i) / 5 := by
  unfold rollInitialMean
  simp only
  congr 1
  refine Finset.sum_congr rfl fun i _ => ?_
  by_cases hz : pairRun st i = 0
  · simp [hz, h i]
  · simp [hz]

theorem gradesSumInv_rollInitialMean (st : GradeState)
    (h : ∀ i, st.percentGrades i = 0) :
    gradesSumInv (rollInitialMean st) := by
  constructor
  · intro _
    exact rollInitialMean_grade_eq_mean st h
  · intro hf
    simp [rollInitialMean] at hf

theorem gradesSumInv_writeSlot (st : GradeState) (it2 : ℕ) (a p : ℚ)
    (h : gradesSumInv st) : gradesSumInv (writeSlot st it2 a p) := h

/-! ## Claim theorems for the rolling grade -/

/-- C1, counterexample: after warm-up (nine recorded samples, each pairwise
run non-zero), the maintained percentGrade does not equal the true mean of
the five wrap-around pairwise rise/run ratios of the current buffer: the
incremental step recomputes only the ratio of the inserted slot, leaving
the ratio stored for its predecessor stale. -/
theorem grade_not_current_pairwise_mean :
    c1state.percentGradeIterRolled = true
    ∧ pairRun c1state 0 ≠ 0 ∧ pairRun c1state 1 ≠ 0 ∧ pairRun c1state 2 ≠ 0
    ∧ pairRun c1state 3 ≠ 0 ∧ pairRun c1state 4 ≠ 0
    ∧ c1state.percentGrade ≠ specPairwiseMean c1state := by
  with_unfolding_all decide

/-- C1, amended: at all times the maintained percentGrade equals the mean
of the five stored per-slot ratios (each computed when its slot was filled,
against the then-current successor), and each recorded sample preserves
this by the O(1) subtract-old/add-new update; before the first roll the
stored ratios are still zero. -/
theorem grade_stored_mean_invariant (st : GradeState) (alt dist : ℚ)
    (h : gradesSumInv st) : gradesSumInv (recordSample st alt dist) := by
  obtain ⟨h1, h2⟩ := h
  simp only [recordSample]
  apply gradesSumInv_incrementalUpdate
  apply gradesSumInv_writeSlot
  split
  · split
    · exact ⟨h1, h2⟩
    · next hnr =>
      exact gradesSumInv_rollInitialMean st (h2 (Bool.not_eq_true _ ▸ hnr))
  · exact ⟨h1, h2⟩

/-- Witness for C1: the invariant holds at the onroad reset state and is
preserved by a concrete recorded sample. -/
theorem grade_stored_mean_invariant_witness :
    gradesSumInv resetGradeState ∧ gradesSumInv (recordSample resetGradeState 3 7) :=
  ⟨by with_unfolding_all decide,
   grade_stored_mean_invariant resetGradeState 3 7 (by with_unfolding_all decide)⟩

/-- C6: zero-run pairs are skipped in both grade paths: the incremental
update leaves percentGrade and the stored ratios untouched when the new
pair has zero run, the initial-mean pass leaves the slot of a zero-run pair
untouched, and the initial mean itself sums ratios only over pairs with
non-zero run. -/
theorem grade_zero_run_guard :
    (∀ (st : GradeState) (j : Fin 5), st.percentGradeIterRolled = true →
      pairRun st j = 0 →
      (incrementalUpdate st j).percentGrade = st.percentGrade
      ∧ (incrementalUpdate st j).percentGrades = st.percentGrades)
    ∧ (∀ (st : GradeState) (i : Fin 5), pairRun st i = 0 →
      (rollInitialMean st).percentGrades i = st.percentGrades i)
    ∧ (∀ st : GradeState, (rollInitialMean st).percentGrade
      = (∑ i ∈ Finset.univ.filter (fun i => pairRun st i ≠ 0),
          pairRise st i / pairRun st i * 100) / 5) := by
  refine ⟨?_, ?_, ?_⟩
  · intro st j hr hz
    unfold incrementalUpdate
    rw [if_pos hr, if_pos hz]
    exact ⟨rfl, rfl⟩
  · intro st i hz
    simp [rollInitialMean, hz]
  · intro st
    simp only [rollInitialMean]
    congr 1
    rw [Finset.sum_filter]
    refine Finset.sum_congr rfl fun i _ => ?_
    by_cases hz : pairRun st i = 0 <;> simp [hz]

/-- Witness for C6: a concrete rolled state whose new pair has zero run
leaves the maintained grade and stored ratios unchanged. -/
theorem grade_zero_run_guard_witness :
    c6SampleState.percentGradeIterRolled = true ∧ pairRun c6SampleState 0 = 0
    ∧ (incrementalUpdate c6SampleState 0).percentGrade = c6SampleState.percentGrade
    ∧ (incrementalUpdate c6SampleState 0).percentGrades = c6SampleState.percentGrades :=
  ⟨rfl, by with_unfolding_all decide,
   (grade_zero_run_guard.1 c6SampleState 0 rfl (by with_unfolding_all decide)).1,
   (grade_zero_run_guard.1 c6SampleState 0 rfl (by with_unfolding_all decide)).2⟩

/-- C9: update_status resets the rolling-grade state exactly at the
offroad-to-onroad edge: the result is the reset state when started is true
and started_prev false, and the untouched input state in every other case,
in particular whenever started did not change. -/
theorem grade_reset_only_on_onroad_edge (started started_prev : Bool) (g : GradeState) :
    update_status_grade started started_prev g
      = if started && !started_prev then resetGradeState else g := by
  cases started <;> cases started_prev <;> simp [update_status_grade]

/-! ## Fade-bound lemmas and claim C3 -/

theorem brakeFadeStep_bounds (alpha : ℚ) (bp : ℤ) (dt : ℚ)
    (h0 : 0 ≤ alpha) (h1 : alpha ≤ 1) (hdt : 0 ≤ dt) :
    0 ≤ brakeFadeStep alpha bp dt ∧ brakeFadeStep alpha bp dt ≤ 1 := by
  have hstep : 0 ≤ fade_time_step * dt := by
    unfold fade_time_step fade_duration
    positivity
  unfold brakeFadeStep
  split_ifs <;> constructor <;> linarith

theorem onePedalFadeStep_bounds (fade : ℚ) (gateOpen cond : Bool) (dt : ℚ)
    (h0 : -1 ≤ fade) (h1 : fade ≤ 1) (hdt : 0 ≤ dt) :
    -1 ≤ onePedalFadeStep fade gateOpen cond dt
    ∧ onePedalFadeStep fade gateOpen cond dt ≤ 1 := by
  have hstep : 0 ≤ fade_time_step * dt := by
    unfold fade_time_step fade_duration
    positivity
  unfold onePedalFadeStep
  split_ifs <;> constructor <;> linarith

theorem brakeFadeRun_bounds (steps : List (ℤ × ℚ)) (alpha : ℚ)
    (h0 : 0 ≤ alpha) (h1 : alpha ≤ 1) (hdt : ∀ p ∈ steps, 0 ≤ p.2) :
    0 ≤ brakeFadeRun alpha steps ∧ brakeFadeRun alpha steps ≤ 1 := by
  induction steps generalizing alpha with
  | nil => exact ⟨h0, h1⟩
  | cons p l ih =>
    have hp := brakeFadeStep_bounds alpha p.1 p.2 h0 h1 (hdt p (List.mem_cons_self p l))
    exact ih (brakeFadeStep alpha p.1 p.2) hp.1 hp.2
      (fun q hq => hdt q (List.mem_cons_of_mem p hq))

theorem onePedalFadeRun_bounds (steps : List (Bool × Bool × ℚ)) (fade : ℚ)
    (h0 : -1 ≤ fade) (h1 : fade ≤ 1) (hdt : ∀ p ∈ steps, 0 ≤ p.2.2) :
    -1 ≤ onePedalFadeRun fade steps ∧ onePedalFadeRun fade steps ≤ 1 := by
  induction steps generalizing fade with
  | nil => exact ⟨h0, h1⟩
  | cons p l ih =>
    have hp := onePedalFadeStep_bounds fade p.1 p.2.1 p.2.2 h0 h1
      (hdt p (List.mem_cons_self p l))
    exact ih (onePedalFadeStep fade p.1 p.2.1 p.2.2) hp.1 hp.2
      (fun q hq => hdt q (List.mem_cons_of_mem p hq))

/-- C3: for every sequence of carState updates with non-negative elapsed
time deltas, the brake-indicator fade stays in [0, 1] and the one-pedal
fade stays in [-1, 1], given they start within those bounds. -/
theorem fade_values_stay_bounded :
    (∀ (alpha : ℚ) (steps : List (ℤ × ℚ)), 0 ≤ alpha → alpha ≤ 1 →
      (∀ p ∈ steps, 0 ≤ p.2) →
      0 ≤ brakeFadeRun alpha steps ∧ brakeFadeRun alpha steps ≤ 1)
    ∧ (∀ (fade : ℚ) (steps : List (Bool × Bool × ℚ)), -1 ≤ fade → fade ≤ 1 →
      (∀ p ∈ steps, 0 ≤ p.2.2) →
      -1 ≤ onePedalFadeRun fade steps ∧ onePedalFadeRun fade steps ≤ 1) :=
  ⟨fun alpha steps h0 h1 hdt => brakeFadeRun_bounds steps alpha h0 h1 hdt,
   fun fade steps h0 h1 hdt => onePedalFadeRun_bounds steps fade h0 h1 hdt⟩

/-- Witness for C3: concrete runs with large time deltas stay in bounds. -/
theorem fade_values_stay_bounded_witness :
    (0 ≤ brakeFadeRun (1/2) [(3, 2), (0, 50)]
      ∧ brakeFadeRun (1/2) [(3, 2), (0, 50)] ≤ 1)
    ∧ (-1 ≤ onePedalFadeRun 0 [(true, true, 2), (true, false, 50)]
      ∧ onePedalFadeRun 0 [(true, true, 2), (true, false, 50)] ≤ 1) :=
  ⟨fade_values_stay_bounded.1 (1/2) [(3, 2), (0, 50)] (by norm_num) (by norm_num)
      (by with_unfolding_all decide),
   fade_values_stay_bounded.2 0 [(true, true, 2), (true, false, 50)] (by norm_num)
      (by norm_num) (by with_unfolding_all decide)⟩

/-! ## Claim C2: path horizon shortening for a lead -/

/-- C2: when the first lead has probability above 0.5, the path horizon
computed by update_model equals the spec formula
clamp(x*2 - min(x*2*0.35, 10), 0, maxDistance) applied to the previously
clamped trajectory endpoint; with lead probability 0.6 at forward position
20 and a configured range reaching it, the horizon is 30. -/
theorem path_horizon_with_lead (min_draw max_draw trajEndX lead_prob lead_x : ℚ)
    (h : 1/2 < lead_prob) :
    update_model_max_distance min_draw max_draw trajEndX lead_prob lead_x
      = spec_shortened_horizon lead_x (stdClamp trajEndX min_draw max_draw)
    ∧ update_model_max_distance 10 100 100 (6/10) 20 = 30 := by
  constructor
  · simp only [update_model_max_distance, spec_shortened_horizon, if_pos h]
  · with_unfolding_all decide

/-- Witness for C2: the claimed scenario itself, lead probability 0.6 at
forward position 20. -/
theorem path_horizon_with_lead_witness :
    update_model_max_distance 10 100 100 (6/10) 20
      = spec_shortened_horizon 20 (stdClamp 100 10 100)
    ∧ update_model_max_distance 10 100 100 (6/10) 20 = 30 :=
  path_horizon_with_lead 10 100 100 (6/10) 20 (by norm_num)

/-! ## Claim C10: unguarded perspective division -/

/-- C10: calib_frame_to_full_frame divides by the third transformed
component with no guard; whenever that component is non-zero the division
is exact (multiplying back recovers the transformed point), the written
vertex is the affine display transform of the divided coordinates, and the
returned visibility boolean holds exactly when the vertex lies within the
screen expanded by the 500-unit margin.  A non-zero transformed depth is
thus an unstated precondition of the interface. -/
theorem projection_divides_without_guard (s : ProjectionState) (in_x in_y in_z : ℚ)
    (h : transformedPoint s in_x in_y in_z 2 ≠ 0) :
    ((calib_frame_to_full_frame s in_x in_y in_z).1
      = (nvgTransformX s.car_space_transform
          (transformedPoint s in_x in_y in_z 0 / transformedPoint s in_x in_y in_z 2)
          (transformedPoint s in_x in_y in_z 1 / transformedPoint s in_x in_y in_z 2),
         nvgTransformY s.car_space_transform
          (transformedPoint s in_x in_y in_z 0 / transformedPoint s in_x in_y in_z 2)
          (transformedPoint s in_x in_y in_z 1 / transformedPoint s in_x in_y in_z 2)))
    ∧ (transformedPoint s in_x in_y in_z 0 / transformedPoint s in_x in_y in_z 2)
        * transformedPoint s in_x in_y in_z 2 = transformedPoint s in_x in_y in_z 0
    ∧ (transformedPoint s in_x in_y in_z 1 / transformedPoint s in_x in_y in_z 2)
        * transformedPoint s in_x in_y in_z 2 = transformedPoint s in_x in_y in_z 1
    ∧ ((calib_frame_to_full_frame s in_x in_y in_z).2 = true ↔
        (-500 ≤ (calib_frame_to_full_frame s in_x in_y in_z).1.1
         ∧ (calib_frame_to_full_frame s in_x in_y in_z).1.1 ≤ s.fb_w + 500
         ∧ -500 ≤ (calib_frame_to_full_frame s in_x in_y in_z).1.2
         ∧ (calib_frame_to_full_frame s in_x in_y in_z).1.2 ≤ s.fb_h + 500)) := by
  refine ⟨rfl, div_mul_cancel₀ _ h, div_mul_cancel₀ _ h, ?_⟩
  exact ⟨of_decide_eq_true, decide_eq_true⟩

/-- Witness for C10: a concrete state and point with non-zero transformed
depth. -/
theorem projection_divides_without_guard_witness :
    transformedPoint projSample 1 2 3 2 ≠ 0
    ∧ ((calib_frame_to_full_frame projSample 1 2 3).2 = true ↔
        (-500 ≤ (calib_frame_to_full_frame projSample 1 2 3).1.1
         ∧ (calib_frame_to_full_frame projSample 1 2 3).1.1 ≤ projSample.fb_w + 500
         ∧ -500 ≤ (calib_frame_to_full_frame projSample 1 2 3).1.2
         ∧ (calib_frame_to_full_frame projSample 1 2 3).1.2 ≤ projSample.fb_h + 500)) :=
  ⟨by with_unfolding_all decide,
   (projection_divides_without_guard projSample 1 2 3
      (by with_unfolding_all decide)).2.2.2⟩

/-! ## Claim C5: vertex-count capacity bound -/

/-- C5: for every curve and truncation index, the vertex buffer written by
update_line_data has length at most twice the truncation index plus 2. -/
theorem line_vertex_count_bounded (s : ProjectionState) (line_x line_y line_z : List ℚ)
    (y_off z_off : ℚ) (max_idx : ℕ) :
    (update_line_data_verts s line_x line_y line_z y_off z_off max_idx).length
      ≤ 2 * max_idx + 2 := by
  unfold update_line_data_verts
  rw [List.length_append]
  have h1 := List.length_filterMap_le (fun i =>
    let r := calib_frame_to_full_frame s (line_x.getD i 0)
      (line_y.getD i 0 - y_off) (line_z.getD i 0 + z_off)
    if r.2 then some r.1 else none) (List.range (max_idx + 1))
  have h2 := List.length_filterMap_le (fun i =>
    let r := calib_frame_to_full_frame s (line_x.getD i 0)
      (line_y.getD i 0 + y_off) (line_z.getD i 0 + z_off)
    if r.2 then some r.1 else none) (List.range (max_idx + 1)).reverse
  rw [List.length_range] at h1
  rw [List.length_reverse, List.length_range] at h2
  omega

/-! ## Claim C4: the modelV2 rebuild gate -/

/-- C4, counterexample: on a tick where modelV2 updated, the drawing
context exists and calibration has never been received
(world_objects_visible still false), the rebuild is performed, refuting
that it is skipped iff calibration was never received. -/
theorem model_rebuild_not_calibration_gated :
    ¬ ((modelRebuildPerformed ⟨true, true, false⟩ = false)
        ↔ (ModelUpdateFlags.world_objects_visible ⟨true, true, false⟩ = false)) := by
  decide

/-- C4, amended: the rebuild is skipped iff the model topic did not update
or the drawing context s->vg is absent, independently of the
calibration-ever-received flag; a skipped tick leaves the vertex buffer
unchanged, and a liveCalibration update sets world_objects_visible instead
of gating the rebuild. -/
theorem model_rebuild_gate_characterization (u v b1 b2 : Bool) (s : ProjectionState)
    (xs ys zs : List ℚ) (mi : ℕ) (old : List (ℚ × ℚ)) :
    modelBranchTrack ⟨u, v, b1⟩ s xs ys zs mi old
      = modelBranchTrack ⟨u, v, b2⟩ s xs ys zs mi old
    ∧ modelBranchTrack ⟨u, false, b1⟩ s xs ys zs mi old = old
    ∧ modelBranchTrack ⟨false, v, b1⟩ s xs ys zs mi old = old
    ∧ calibUpdateVisible b1 true = true := by
  refine ⟨rfl, ?_, ?_, rfl⟩
  · simp [modelBranchTrack, modelRebuildPerformed]
  · simp [modelBranchTrack, modelRebuildPerformed]

/-! ## Brightness lemmas and claim C7 -/

theorem stdClamp_mono (v1 v2 lo hi : ℚ) (hlh : lo ≤ hi) (h : v1 ≤ v2) :
    stdClamp v1 lo hi ≤ stdClamp v2 lo hi := by
  unfold stdClamp
  split_ifs <;> linarith

theorem cieClippedBrightness_mono (l1 l2 : ℚ) (h : l1 ≤ l2) :
    cieClippedBrightness l1 ≤ cieClippedBrightness l2 := by
  unfold cieClippedBrightness
  apply stdClamp_mono _ _ _ _ (by norm_num)
  by_cases h1 : 100 * l1 ≤ 8
  · by_cases h2 : 100 * l2 ≤ 8
    · rw [if_pos h1, if_pos h2]
      have hd : 100 * l1 / (9033/10) ≤ 100 * l2 / (9033/10) :=
        (div_le_div_iff_of_pos_right (by norm_num)).2 (by linarith)
      linarith
    · rw [if_pos h1, if_neg h2]
      push_neg at h2
      have ha : 100 * l1 / (9033/10) ≤ 8 / (9033/10) :=
        (div_le_div_iff_of_pos_right (by norm_num)).2 (by linarith)
      have hb : (8 : ℚ) / (9033/10) ≤ ((24:ℚ)/116)^3 := by norm_num
      have hc : ((24:ℚ)/116)^3 ≤ ((100 * l2 + 16)/116)^3 := by
        apply pow_le_pow_left₀ (by norm_num)
        exact (div_le_div_iff_of_pos_right (by norm_num)).2 (by linarith)
      linarith
  · by_cases h2 : 100 * l2 ≤ 8
    · exfalso; push_neg at h1; linarith
    · rw [if_neg h1, if_neg h2]
      push_neg at h1
      have hc : ((100 * l1 + 16)/116)^3 ≤ ((100 * l2 + 16)/116)^3 := by
        apply pow_le_pow_left₀
        · apply div_nonneg <;> linarith
        · exact (div_le_div_iff_of_pos_right (by norm_num)).2 (by linarith)
      linarith

theorem firstOrderFilter_mono (k y1 y2 x1 x2 : ℚ) (hk0 : 0 ≤ k) (hk1 : k ≤ 1)
    (hy : y1 ≤ y2) (hx : x1 ≤ x2) :
    firstOrderFilterUpdate k y1 x1 ≤ firstOrderFilterUpdate k y2 x2 := by
  unfold firstOrderFilterUpdate
  nlinarith [mul_le_mul_of_nonneg_right hy (by linarith : (0:ℚ) ≤ 1 - k),
    mul_le_mul_of_nonneg_right hx hk0]

theorem updateBrightnessStep_mono (k : ℚ) (hk0 : 0 ≤ k) (hk1 : k ≤ 1)
    (started awake : Bool) (l1 l2 y1 y2 : ℚ) (hl : l1 ≤ l2) (hy : y1 ≤ y2) :
    (updateBrightnessStep k started awake l1 y1).1
      ≤ (updateBrightnessStep k started awake l2 y2).1
    ∧ (updateBrightnessStep k started awake l1 y1).2
      ≤ (updateBrightnessStep k started awake l2 y2).2 := by
  have htarget : (if started then cieClippedBrightness l1 else BACKLIGHT_OFFROAD)
      ≤ (if started then cieClippedBrightness l2 else BACKLIGHT_OFFROAD) := by
    cases started
    · exact le_rfl
    · simpa using cieClippedBrightness_mono l1 l2 hl
  have hfilter := firstOrderFilter_mono k y1 y2 _ _ hk0 hk1 hy htarget
  unfold updateBrightnessStep
  refine ⟨?_, hfilter⟩
  cases awake
  · exact le_rfl
  · simpa using hfilter

theorem brightnessRun_mono (k : ℚ) (hk0 : 0 ≤ k) (hk1 : k ≤ 1)
    (ins1 ins2 : List (Bool × Bool × ℚ))
    (hf : List.Forall₂ (fun p q => p.1 = q.1 ∧ p.2.1 = q.2.1 ∧ p.2.2 ≤ q.2.2) ins1 ins2)
    (y1 y2 : ℚ) (hy : y1 ≤ y2) :
    List.Forall₂ (· ≤ ·) (brightnessRun k y1 ins1).1 (brightnessRun k y2 ins2).1
    ∧ (brightnessRun k y1 ins1).2 ≤ (brightnessRun k y2 ins2).2 := by
  induction ins1 generalizing ins2 y1 y2 with
  | nil =>
    cases hf
    exact ⟨List.Forall₂.nil, hy⟩
  | cons p l1 ih =>
    rw [List.forall₂_cons_left_iff] at hf
    obtain ⟨q, l2, hpq, hrest, rfl⟩ := hf
    obtain ⟨ps, pa, pl⟩ := p
    obtain ⟨qs, qa, ql⟩ := q
    obtain ⟨he1, he2, hle⟩ := hpq
    dsimp only at he1 he2 hle
    subst he1
    subst he2
    have hstep := updateBrightnessStep_mono k hk0 hk1 ps pa pl ql y1 y2 hle hy
    have htail := ih l2 hrest (updateBrightnessStep k ps pa pl y1).2
      (updateBrightnessStep k ps pa ql y2).2 hstep.2
    exact ⟨List.Forall₂.cons hstep.1 htail.1, htail.2⟩

/-- C7, counterexample: with smoothing coefficient 1/2, one onroad tick at
full ambient light followed by an offroad awake tick publishes 81.25, not
the offroad value 75: the published brightness is the smoothed filter
state, so going offroad pins the filter target, not the published value. -/
theorem brightness_not_pinned_offroad :
    (brightnessRun (1/2) BACKLIGHT_OFFROAD
        [(true, true, 1), (false, true, 0)]).1.getD 1 0 ≠ BACKLIGHT_OFFROAD := by
  with_unfolding_all decide

/-- C7, amended: the published brightness is monotone in the ambient-light
estimate in the run sense (pointwise-dominating light sequences with equal
started/awake flags and dominating initial filter state give pointwise
dominating outputs); while not started the filter target is pinned to
BACKLIGHT_OFFROAD, which is a fixed point of the filter; and the published
value is 0 whenever the device is not awake. -/
theorem brightness_monotone_target_pinned_zero_asleep :
    (∀ k : ℚ, 0 ≤ k → k ≤ 1 →
      ∀ (ins1 ins2 : List (Bool × Bool × ℚ)),
        List.Forall₂ (fun p q => p.1 = q.1 ∧ p.2.1 = q.2.1 ∧ p.2.2 ≤ q.2.2) ins1 ins2 →
        ∀ y1 y2 : ℚ, y1 ≤ y2 →
        List.Forall₂ (· ≤ ·) (brightnessRun k y1 ins1).1 (brightnessRun k y2 ins2).1)
    ∧ (∀ (k : ℚ) (awake : Bool) (light : ℚ),
        updateBrightnessStep k false awake light BACKLIGHT_OFFROAD
          = (if awake then BACKLIGHT_OFFROAD else 0, BACKLIGHT_OFFROAD))
    ∧ (∀ (k : ℚ) (started : Bool) (light y : ℚ),
        (updateBrightnessStep k started false light y).1 = 0) := by
  refine ⟨?_, ?_, ?_⟩
  · intro k hk0 hk1 ins1 ins2 hf y1 y2 hy
    exact (brightnessRun_mono k hk0 hk1 ins1 ins2 hf y1 y2 hy).1
  · intro k awake light
    simp [updateBrightnessStep, firstOrderFilterUpdate]
  · intro k started light y
    simp [updateBrightnessStep]

/-- Witness for C7: brighter ambient light on an otherwise identical
one-tick run gives a published value at least as large. -/
theorem brightness_monotone_witness :
    List.Forall₂ (· ≤ ·)
      (brightnessRun (1/2) BACKLIGHT_OFFROAD [(true, true, 0)]).1
      (brightnessRun (1/2) BACKLIGHT_OFFROAD [(true, true, 1)]).1 :=
  brightness_monotone_target_pinned_zero_asleep.1 (1/2) (by norm_num) (by norm_num)
    [(true, true, 0)] [(true, true, 1)]
    (List.Forall₂.cons ⟨rfl, rfl, by norm_num⟩ List.Forall₂.nil)
    BACKLIGHT_OFFROAD BACKLIGHT_OFFROAD le_rfl

/-! ## Claim C8: wakefulness tick -/

/-- C8, counterexample: offroad with no ignition but with the device awake,
a large simultaneous accelerometer and gyroscope delta still makes the code
compute should_wake = true, while the claimed formula (tap detection
evaluated only while asleep) yields false. -/
theorem tap_detection_not_gated_on_asleep :
    (updateWakefulnessStep 5 false false 1 1 ⟨10, 0, 0⟩).2 = true
    ∧ spec_should_wake true false false (1 - 0) (1 - 0) = false := by
  with_unfolding_all decide

/-- C8, amended: each tick decrements the countdown floored at 0, and
should_wake is onroad OR ignition OR the simultaneous 0.2-accelerometer and
0.15-gyroscope threshold test against the stored baselines — evaluated
whenever neither onroad nor ignition is active, regardless of the awake
flag; in that case the accelerometer baseline takes a 1/N-weighted running
average while the gyroscope baseline takes the raw sample, and otherwise
the baselines are untouched. -/
theorem wakefulness_step_characterization (N : ℚ) (started ignition : Bool)
    (accel gyro : ℚ) (st : DeviceWakeState) :
    (updateWakefulnessStep N started ignition accel gyro st).1.awake_timeout
      = max (st.awake_timeout - 1) 0
    ∧ (updateWakefulnessStep N started ignition accel gyro st).2
      = (started || ignition
          || (decide ((1:ℚ)/5 < |accel - st.accel_prev|)
              && decide ((3:ℚ)/20 < |gyro - st.gyro_prev|)))
    ∧ (updateWakefulnessStep N started ignition accel gyro st).1.accel_prev
      = (if started || ignition then st.accel_prev
         else (st.accel_prev * (N - 1) + accel) / N)
    ∧ (updateWakefulnessStep N started ignition accel gyro st).1.gyro_prev
      = (if started || ignition then st.gyro_prev else gyro) := by
  unfold updateWakefulnessStep
  cases hsi : (started || ignition) <;> simp [hsi]
